import Mathlib

/-!
# Verification of the social-network data layer (`src/main.py`)

Shallow embedding of the schema (User, Post, Like), the custom error type,
and the repository functions of `main.py`, together with theorems settling
the specification's claims about them.

The database session is modelled as an explicit `Store` record holding the
three tables as lists in insertion order.  `generate_uuid` produces a fresh
random identifier in the source; here every creating operation takes the
generated identifier as an explicit argument.  A Python function that
raises the custom exception is modelled with `Except`; a Python function
annotated `-> None` returns `Option _` data set to `none` where the claim
is about its return value.
-/

namespace SocialDB

/-- Row of the `users` table (`class User`, main.py lines 29–41):
primary key `userId` (generated), `first_name`, `last_name`,
`email` (unique), `profile_name`. -/
structure User where
  userId : String
  first_name : String
  last_name : String
  email : String
  profile_name : String
  deriving Repr, DecidableEq

/-- Row of the `posts` table (`class Post`, main.py lines 44–54):
primary key `postId` (generated), foreign key `user_id` to `users.userId`,
and `content`. -/
structure Post where
  postId : String
  user_id : String
  content : String
  deriving Repr, DecidableEq

/-- Row of the `likes` table (`class Like`, main.py lines 57–67):
primary key `likeId` (generated), foreign key `post_id` to `posts.postId`,
foreign key `user_id` to `users.userId`. -/
structure Like where
  likeId : String
  post_id : String
  user_id : String
  deriving Repr, DecidableEq

/-- The session's persisted state: the three tables, rows in insertion
order. -/
structure Store where
  users : List User
  posts : List Post
  likes : List Like
  deriving Repr, DecidableEq

/-- The empty database, as created by `Base.metadata.create_all`. -/
def emptyStore : Store := { users := [], posts := [], likes := [] }

/-- The custom exception `InviladInput` (main.py lines 18–25), carrying a
message and an HTTP-style status code. -/
structure InviladInput where
  message : String
  status_code : Nat
  deriving Repr, DecidableEq

/-- `add_user` (main.py lines 71–93).  Looks for an existing user with the
given email (`session.scalar(select(User).filter(User.email == email))`);
if one exists it raises `InviladInput(..., status_code=409)` and the
session state is untouched.  Otherwise it adds the new user (with the
generated identifier) and commits.  The Python function is annotated
`-> None`, so on success the value handed back to the caller is `none`.
The pair returned here is (outcome handed to the caller, session state
after the call). -/
def add_user (s : Store) (newId first_name last_name email profile_name : String) :
    Except InviladInput (Option User) × Store :=
  if ((s.users.find? (fun u => u.email == email)).isSome) then
    (Except.error
      { message := "User with email:" ++ email ++ " already exist"
        status_code := 409 }, s)
  else
    (Except.ok none,
      { s with users :=
          s.users ++ [{ userId := newId, first_name := first_name,
                        last_name := last_name, email := email,
                        profile_name := profile_name }] })

/-- `add_post` (main.py lines 97–101): inserts a post with the given owner
reference and content, with no existence check on the user reference. -/
def add_post (s : Store) (newId user_id content : String) : Store :=
  { s with posts := s.posts ++ [{ postId := newId, user_id := user_id, content := content }] }

/-- `add_like` (main.py lines 105–109): inserts a like row linking the
given user and post references, with no existence check and no
(user, post) uniqueness check. -/
def add_like (s : Store) (newId user_id post_id : String) : Store :=
  { s with likes := s.likes ++ [{ likeId := newId, post_id := post_id, user_id := user_id }] }

/-- `get_all_posts` (main.py lines 113–114): all posts, insertion order. -/
def get_all_posts (s : Store) : List Post := s.posts

/-- `get_all_users` (main.py lines 117–118): all users, insertion order. -/
def get_all_users (s : Store) : List User := s.users

/-- `get_post_with_user_id` (main.py lines 121–122):
`select(Post).filter(Post.user_id == user_id)`. -/
def get_post_with_user_id (s : Store) (user_id : String) : List Post :=
  s.posts.filter (fun po => po.user_id == user_id)

/-- The SQL cross product `FROM users, likes` in nested-loop order. -/
def sqlProduct {α β : Type} (xs : List α) (ys : List β) : List (α × β) :=
  xs.flatMap (fun x => ys.map (fun y => (x, y)))

/-- `get_user_like_post` (main.py lines 125–130):
`select(User, Like).filter(Like.post_id == post_id).filter(User.userId == Like.user_id)`,
read back through `session.scalars`, which keeps only the first selected
entity (the `User`) of each result row. -/
def get_user_like_post (s : Store) (post_id : String) : List User :=
  ((sqlProduct s.users s.likes).filter
      (fun ul => ul.2.post_id == post_id && ul.1.userId == ul.2.user_id)).map Prod.fst

/-- `display_user_like_post` (main.py lines 337–341), as the list of lines
printed to the console: the first `print` emits the header and the line
"They are: " (the f-string contains an embedded newline), then one line per
element of `get_user_like_post`. -/
def display_user_like_post (s : Store) (post_id : String) : List String :=
  let users := get_user_like_post s post_id
  ("Post ID: " ++ post_id ++ ", Total Likes:" ++ toString users.length)
    :: "They are: "
    :: users.map (fun u =>
        "Name: " ++ u.first_name ++ " " ++ u.last_name ++ " \t email: " ++ u.email)

/-- The output format claimed by the specification for the likers display:
the header line followed directly by one line per liker, and nothing
else. -/
def display_user_like_post_specFormat (s : Store) (post_id : String) : List String :=
  let users := get_user_like_post s post_id
  ("Post ID: " ++ post_id ++ ", Total Likes:" ++ toString users.length)
    :: users.map (fun u =>
        "Name: " ++ u.first_name ++ " " ++ u.last_name ++ " \t email: " ++ u.email)

/-- Referential action a foreign key declares for deletion of the referenced
row.  SQL's default, when no `ondelete` argument is given, is NO ACTION. -/
inductive OnDelete where
  | noAction
  | cascade
  deriving Repr, DecidableEq

/-- A foreign-key declaration of the schema: table and column, referenced
table and column, and the declared ON DELETE action. -/
structure FKDecl where
  table : String
  column : String
  refTable : String
  refColumn : String
  onDelete : OnDelete
  deriving Repr, DecidableEq

/-- `Post.user_id = mapped_column(String(32), ForeignKey("users.userId"))`
(main.py line 50): no `ondelete` argument and no relationship cascade is
declared anywhere in the schema. -/
def posts_user_fk : FKDecl :=
  { table := "posts", column := "user_id", refTable := "users",
    refColumn := "userId", onDelete := OnDelete.noAction }

/-- `Like.post_id = mapped_column(String(36), ForeignKey("posts.postId"))`
(main.py line 63): no `ondelete` argument. -/
def likes_post_fk : FKDecl :=
  { table := "likes", column := "post_id", refTable := "posts",
    refColumn := "postId", onDelete := OnDelete.noAction }

/-- `Like.user_id = mapped_column(String(36), ForeignKey("users.userId"))`
(main.py line 64): no `ondelete` argument. -/
def likes_user_fk : FKDecl :=
  { table := "likes", column := "user_id", refTable := "users",
    refColumn := "userId", onDelete := OnDelete.noAction }

/-- Deletion of a user row under the schema as declared.  The repository
exposes no delete operation; this is the SQL DELETE semantics for the
declared schema: every foreign key referencing `users` carries the default
NO ACTION (no cascade is declared in main.py), so only the matching `users`
row is removed and dependent `posts`/`likes` rows are left in place. -/
def deleteUser (s : Store) (uid : String) : Store :=
  { s with users := s.users.filter (fun u => u.userId != uid) }

/-- Deletion of a post row under the schema as declared: `likes.post_id`
carries the default NO ACTION, so only the matching `posts` row is
removed. -/
def deletePost (s : Store) (pid : String) : Store :=
  { s with posts := s.posts.filter (fun po => po.postId != pid) }

/-- Modelled from the spec: the cascade behaviour §3 ascribes to the
schema — "deleting a User cascades to delete its Posts and Likes",
"deleting a Post cascades to delete its Likes".  No delete operation
exists in main.py; this definition follows the spec's words, to be
compared with `deleteUser`, which follows the declared schema. -/
def deleteUser_specCascade (s : Store) (uid : String) : Store :=
  { users := s.users.filter (fun u => u.userId != uid)
    posts := s.posts.filter (fun po => po.user_id != uid)
    likes := s.likes.filter (fun l => l.user_id != uid) }

/-- Session states reachable from the empty database by the repository's
creating operations (`add_user`, `add_post`, `add_like`), with arbitrary
generated identifiers and arguments. -/
inductive Reachable : Store → Prop where
  | empty : Reachable emptyStore
  | step_user (s : Store) (id fn ln em pn : String) :
      Reachable s → Reachable (add_user s id fn ln em pn).2
  | step_post (s : Store) (id uid c : String) :
      Reachable s → Reachable (add_post s id uid c)
  | step_like (s : Store) (id uid pid : String) :
      Reachable s → Reachable (add_like s id uid pid)

/-! ## Concrete sample data for witnesses and counterexamples -/

/-- A sample user row. -/
def annRow : User :=
  { userId := "u1", first_name := "Ann", last_name := "Bee",
    email := "a@x.com", profile_name := "ann" }

/-- A sample post row owned by `annRow`. -/
def helloRow : Post := { postId := "p1", user_id := "u1", content := "hello" }

/-- A store holding only `annRow`. -/
def oneUserStore : Store := { users := [annRow], posts := [], likes := [] }

/-- A store holding only `helloRow`. -/
def onePostStore : Store := { users := [], posts := [helloRow], likes := [] }

/-- A sample like row: `annRow` likes `helloRow`. -/
def likeRow : Like := { likeId := "l1", post_id := "p1", user_id := "u1" }

/-- A store holding `annRow`, their post `helloRow` and their like
`likeRow`. -/
def fullStore : Store := { users := [annRow], posts := [helloRow], likes := [likeRow] }

/-! ## Theorems -/

/-- Claim C1: for every session state and every email, if some persisted
User already has that email, `add_user` fails with the named conflict
condition carrying status code 409 and the session state is unchanged (no
row is inserted). -/
theorem add_user_duplicate_email_conflict (s : Store)
    (newId fn ln email pn : String)
    (hdup : ∃ u ∈ s.users, u.email = email) :
    (∃ e : InviladInput, (add_user s newId fn ln email pn).1 = Except.error e ∧
        e.status_code = 409) ∧
    (add_user s newId fn ln email pn).2 = s := by
  obtain ⟨u, hu, he⟩ := hdup
  have hfind : (s.users.find? (fun u => u.email == email)).isSome = true := by
    rw [List.find?_isSome]
    exact ⟨u, hu, by simp [he]⟩
  constructor
  · exact ⟨{ message := "User with email:" ++ email ++ " already exist",
             status_code := 409 }, by simp [add_user, hfind], rfl⟩
  · simp [add_user, hfind]

/-- Witness for C1: a concrete duplicate-email call fails with 409 and
leaves the single stored user row as it was. -/
theorem add_user_duplicate_email_conflict_witness :
    (∃ u ∈ oneUserStore.users, u.email = "a@x.com") ∧
    ((∃ e : InviladInput,
        (add_user oneUserStore "u2" "Cal" "Dee" "a@x.com" "cal").1 = Except.error e ∧
        e.status_code = 409) ∧
      (add_user oneUserStore "u2" "Cal" "Dee" "a@x.com" "cal").2 = oneUserStore) :=
  ⟨by decide, add_user_duplicate_email_conflict _ _ _ _ _ _ (by decide)⟩

/-- Counterexample to C3 as stated: a successful `add_user` call hands
`None` back to the caller (the function is annotated `-> None` and has no
return statement), not the persisted row. -/
theorem add_user_returns_none_counterexample :
    (add_user emptyStore "id1" "Ann" "Bee" "a@x.com" "ann").1 = Except.ok none ∧
    ¬ ∃ u : User, (add_user emptyStore "id1" "Ann" "Bee" "a@x.com" "ann").1 =
        Except.ok (some u) := by
  refine ⟨rfl, ?_⟩
  rintro ⟨u, hu⟩
  have h : (add_user emptyStore "id1" "Ann" "Bee" "a@x.com" "ann").1 =
      Except.ok (none : Option User) := rfl
  rw [h] at hu
  simp at hu

/-- Claim C3 (amended): a call of `add_user` with an email not already
present inserts the new user row, carrying the generated identifier, into
the `users` table (and touches nothing else), but returns `None` to the
caller rather than the persisted row. -/
theorem add_user_fresh_email_inserts (s : Store) (newId fn ln em pn : String)
    (hfresh : ∀ u ∈ s.users, u.email ≠ em) :
    (add_user s newId fn ln em pn).1 = Except.ok none ∧
    (add_user s newId fn ln em pn).2.users =
      s.users ++ [{ userId := newId, first_name := fn, last_name := ln,
                    email := em, profile_name := pn }] ∧
    (add_user s newId fn ln em pn).2.posts = s.posts ∧
    (add_user s newId fn ln em pn).2.likes = s.likes := by
  have hnone : s.users.find? (fun u => u.email == em) = none :=
    List.find?_eq_none.mpr (fun u hu => by simp [hfresh u hu])
  refine ⟨?_, ?_, ?_, ?_⟩ <;> simp [add_user, hnone]

/-- Witness for C3 (amended): a concrete fresh-email call appends the row
and returns `None`. -/
theorem add_user_fresh_email_inserts_witness :
    (∀ u ∈ (emptyStore : Store).users, u.email ≠ "a@x.com") ∧
    ((add_user emptyStore "id1" "Ann" "Bee" "a@x.com" "ann").1 = Except.ok none ∧
      (add_user emptyStore "id1" "Ann" "Bee" "a@x.com" "ann").2.users =
        emptyStore.users ++ [{ userId := "id1", first_name := "Ann", last_name := "Bee",
                               email := "a@x.com", profile_name := "ann" }] ∧
      (add_user emptyStore "id1" "Ann" "Bee" "a@x.com" "ann").2.posts = emptyStore.posts ∧
      (add_user emptyStore "id1" "Ann" "Bee" "a@x.com" "ann").2.likes = emptyStore.likes) :=
  ⟨fun u hu => absurd hu (by simp [emptyStore]),
   add_user_fresh_email_inserts _ _ _ _ _ _ (fun u hu => absurd hu (by simp [emptyStore]))⟩

/-- Claim C5: `get_post_with_user_id` returns exactly the persisted posts
whose owning user identifier equals the argument — every such post is
included, every other post is excluded, and the result is empty when no
post is owned by that user. -/
theorem get_post_with_user_id_exact (s : Store) (uid : String) :
    (∀ po : Post, po ∈ get_post_with_user_id s uid ↔ po ∈ s.posts ∧ po.user_id = uid) ∧
    ((∀ po ∈ s.posts, po.user_id ≠ uid) → get_post_with_user_id s uid = []) := by
  constructor
  · intro po
    simp [get_post_with_user_id, List.mem_filter]
  · intro h
    rw [get_post_with_user_id, List.filter_eq_nil_iff]
    intro po hpo
    simp [h po hpo]

/-- Witness for C5 at a concrete store: the post owned by "u1" is listed
for "u1", and user "u2", who owns nothing, gets the empty list. -/
theorem get_post_with_user_id_exact_witness :
    (helloRow ∈ get_post_with_user_id onePostStore "u1" ↔
      helloRow ∈ onePostStore.posts ∧ helloRow.user_id = "u1") ∧
    ((∀ po ∈ onePostStore.posts, po.user_id ≠ "u2") ∧
      get_post_with_user_id onePostStore "u2" = []) :=
  ⟨(get_post_with_user_id_exact onePostStore "u1").1 helloRow,
   by decide,
   (get_post_with_user_id_exact onePostStore "u2").2 (by decide)⟩

/-- Claim C7: after a successful `add_user` call, the generated identifier
of the new user is retrievable via `get_all_users` — some listed user
carries it. -/
theorem add_user_then_listed (s : Store) (newId fn ln em pn : String)
    (hfresh : ∀ u ∈ s.users, u.email ≠ em) :
    newId ∈ (get_all_users (add_user s newId fn ln em pn).2).map User.userId := by
  have hnone : s.users.find? (fun u => u.email == em) = none :=
    List.find?_eq_none.mpr (fun u hu => by simp [hfresh u hu])
  simp [add_user, get_all_users, hnone]

/-- Witness for C7: a concretely created user's identifier shows up in the
subsequent listing. -/
theorem add_user_then_listed_witness :
    (∀ u ∈ (emptyStore : Store).users, u.email ≠ "a@x.com") ∧
    "id1" ∈ (get_all_users (add_user emptyStore "id1" "Ann" "Bee" "a@x.com" "ann").2).map
        User.userId :=
  ⟨by decide, add_user_then_listed _ _ _ _ _ _ (by decide)⟩

/-- Claim C8: no uniqueness on (user, post) pairs of likes — two
`add_like` calls with the same user and post both succeed (the operation
is total and checks nothing) and leave two distinct Like rows, with
distinct generated identifiers, both linking that user to that post. -/
theorem add_like_twice_two_rows (s : Store) (uid pid id1 id2 : String)
    (hne : id1 ≠ id2) :
    (add_like (add_like s id1 uid pid) id2 uid pid).likes =
      s.likes ++ [⟨id1, pid, uid⟩, ⟨id2, pid, uid⟩] ∧
    (⟨id1, pid, uid⟩ : Like) ≠ ⟨id2, pid, uid⟩ ∧
    (⟨id1, pid, uid⟩ : Like).user_id = uid ∧ (⟨id1, pid, uid⟩ : Like).post_id = pid ∧
    (⟨id2, pid, uid⟩ : Like).user_id = uid ∧ (⟨id2, pid, uid⟩ : Like).post_id = pid := by
  refine ⟨by simp [add_like], ?_, rfl, rfl, rfl, rfl⟩
  simp [hne]

/-- Witness for C8: two concrete likes of the same post by the same user
both persist as distinct rows. -/
theorem add_like_twice_two_rows_witness :
    ("l1" : String) ≠ "l2" ∧
    ((add_like (add_like emptyStore "l1" "u1" "p1") "l2" "u1" "p1").likes =
        emptyStore.likes ++ [⟨"l1", "p1", "u1"⟩, ⟨"l2", "p1", "u1"⟩] ∧
      (⟨"l1", "p1", "u1"⟩ : Like) ≠ ⟨"l2", "p1", "u1"⟩ ∧
      (⟨"l1", "p1", "u1"⟩ : Like).user_id = "u1" ∧
      (⟨"l1", "p1", "u1"⟩ : Like).post_id = "p1" ∧
      (⟨"l2", "p1", "u1"⟩ : Like).user_id = "u1" ∧
      (⟨"l2", "p1", "u1"⟩ : Like).post_id = "p1") :=
  ⟨by decide, add_like_twice_two_rows emptyStore "u1" "p1" "l1" "l2" (by decide)⟩

/-- Claim C6: email uniqueness is preserved by every repository
operation — in every store reachable from the empty database by
`add_user`, `add_post` and `add_like` calls, no two persisted users share
an email. -/
theorem reachable_email_nodup (s : Store) (h : Reachable s) :
    (s.users.map User.email).Nodup := by
  induction h with
  | empty => simp [emptyStore]
  | step_user s id fn ln em pn _ ih =>
      cases hfind : s.users.find? (fun u => u.email == em) with
      | some u =>
          have : (add_user s id fn ln em pn).2 = s := by
            simp [add_user, hfind]
          rw [this]
          exact ih
      | none =>
          have hfresh : ∀ u ∈ s.users, u.email ≠ em := by
            intro u hu
            have := List.find?_eq_none.mp hfind u hu
            simpa using this
          have husers : (add_user s id fn ln em pn).2.users =
              s.users ++ [{ userId := id, first_name := fn, last_name := ln,
                            email := em, profile_name := pn }] := by
            simp [add_user, hfind]
          rw [husers, List.map_append, List.nodup_append]
          refine ⟨ih, by simp, ?_⟩
          intro e he
          simp only [List.mem_map] at he
          obtain ⟨u, hu, rfl⟩ := he
          simp [hfresh u hu]
  | step_post s id uid c _ ih => simpa [add_post] using ih
  | step_like s id uid pid _ ih => simpa [add_like] using ih

/-- Witness for C6: a concrete reachable store (two users, a post and a
like) has pairwise-distinct emails. -/
theorem reachable_email_nodup_witness :
    ((add_like (add_post (add_user (add_user emptyStore "u1" "Ann" "Bee" "a@x.com"
        "ann").2 "u2" "Cal" "Dee" "b@x.com" "cal").2 "p1" "u1" "hello") "l1" "u2"
        "p1").users.map User.email).Nodup :=
  reachable_email_nodup _
    (Reachable.step_like _ "l1" "u2" "p1"
      (Reachable.step_post _ "p1" "u1" "hello"
        (Reachable.step_user _ "u2" "Cal" "Dee" "b@x.com" "cal"
          (Reachable.step_user _ "u1" "Ann" "Bee" "a@x.com" "ann" Reachable.empty))))

/-- Counterexample to C2 as stated: none of the three foreign keys of the
schema declares a cascade (each is a bare `ForeignKey(...)`, i.e. the
default NO ACTION), and on a concrete store holding a user, their post and
their like, deleting the user under the declared schema leaves the post
and the like in place, differing from the cascade the spec describes. -/
theorem cascade_not_declared_counterexample :
    posts_user_fk.onDelete ≠ OnDelete.cascade ∧
    likes_user_fk.onDelete ≠ OnDelete.cascade ∧
    likes_post_fk.onDelete ≠ OnDelete.cascade ∧
    deleteUser fullStore "u1" ≠ deleteUser_specCascade fullStore "u1" ∧
    (deleteUser fullStore "u1").posts = [helloRow] ∧
    (deleteUser fullStore "u1").likes = [likeRow] := by
  refine ⟨by decide, by decide, by decide, by decide, by decide, by decide⟩

/-- Claim C2 (amended): the schema declares its three foreign keys with no
ON DELETE action (NO ACTION, the default — no cascade is declared
anywhere), so deleting a User under the declared schema removes only the
matching user row, leaving its Posts and Likes in place, and deleting a
Post leaves its Likes in place. -/
theorem schema_deletes_do_not_cascade (s : Store) (uid pid : String) :
    posts_user_fk.onDelete = OnDelete.noAction ∧
    likes_user_fk.onDelete = OnDelete.noAction ∧
    likes_post_fk.onDelete = OnDelete.noAction ∧
    (deleteUser s uid).posts = s.posts ∧
    (deleteUser s uid).likes = s.likes ∧
    (deletePost s pid).likes = s.likes ∧
    (deletePost s pid).users = s.users :=
  ⟨rfl, rfl, rfl, rfl, rfl, rfl, rfl⟩

/-- Counterexample to C9 as stated: the likers display prints a second
line "They are: " between the header and the per-liker lines, so the
output is not just the header followed by the liker lines; shown on the
empty store, where the claimed format would be the header alone. -/
theorem display_extra_line_counterexample :
    display_user_like_post emptyStore "p1" ≠
      display_user_like_post_specFormat emptyStore "p1" ∧
    display_user_like_post emptyStore "p1" =
      ["Post ID: p1, Total Likes:0", "They are: "] ∧
    display_user_like_post_specFormat emptyStore "p1" =
      ["Post ID: p1, Total Likes:0"] := by
  refine ⟨by decide, by decide, by decide⟩

/-- Claim C9 (amended): the likers display prints the header line
"Post ID: {id}, Total Likes:{n}", then one extra line "They are: "
(produced by the embedded newline and trailing text of the first
f-string), then exactly one line "Name: {first} {last} \t email: {email}"
per liker, and nothing else. -/
theorem display_user_like_post_format (s : Store) (pid : String) :
    display_user_like_post s pid =
      (display_user_like_post_specFormat s pid).take 1 ++
        "They are: " :: (display_user_like_post_specFormat s pid).drop 1 := rfl

/-- Membership in the SQL cross product. -/
theorem mem_sqlProduct {α β : Type} {xs : List α} {ys : List β} {p : α × β} :
    p ∈ sqlProduct xs ys ↔ p.1 ∈ xs ∧ p.2 ∈ ys := by
  cases p with
  | mk a b => simp [sqlProduct]

/-- Claim C4: provided every persisted Like references an existing Post
(the schema's declared foreign key `likes.post_id → posts.postId`),
`get_user_like_post` returns the empty list — rather than failing —
whenever the given identifier matches no persisted Post, or matches a post
that no Like row references. -/
theorem get_user_like_post_empty (s : Store) (pid : String)
    (hri : ∀ l ∈ s.likes, ∃ po ∈ s.posts, po.postId = l.post_id)
    (h : (∀ po ∈ s.posts, po.postId ≠ pid) ∨ (∀ l ∈ s.likes, l.post_id ≠ pid)) :
    get_user_like_post s pid = [] := by
  have hnol : ∀ l ∈ s.likes, l.post_id ≠ pid := by
    rcases h with h | h
    · intro l hl
      obtain ⟨po, hpo, hpe⟩ := hri l hl
      rw [← hpe]
      exact h po hpo
    · exact h
  rw [get_user_like_post, List.map_eq_nil_iff, List.filter_eq_nil_iff]
  rintro ⟨u, l⟩ hmem
  have hl : l ∈ s.likes := (mem_sqlProduct.mp hmem).2
  simp [hnol l hl]

/-- Witness for C4: on a concrete store with one post and no likes, the
likers query yields the empty list both for a nonexistent post identifier. -/
theorem get_user_like_post_empty_witness :
    (∀ l ∈ onePostStore.likes, ∃ po ∈ onePostStore.posts, po.postId = l.post_id) ∧
    ((∀ po ∈ onePostStore.posts, po.postId ≠ "p9") ∨
      (∀ l ∈ onePostStore.likes, l.post_id ≠ "p9")) ∧
    get_user_like_post onePostStore "p9" = [] :=
  ⟨by decide, Or.inl (by decide),
   get_user_like_post_empty onePostStore "p9" (by decide) (Or.inl (by decide))⟩

/-! ### Counting helpers for the join query -/

/-- Counting over the SQL cross product decomposes into one inner count
per outer row. -/
theorem countP_sqlProduct {α β : Type} (xs : List α) (ys : List β) (Q : α × β → Bool) :
    (sqlProduct xs ys).countP Q = (xs.map (fun x => ys.countP (fun y => Q (x, y)))).sum := by
  induction xs with
  | nil => simp [sqlProduct]
  | cons x xs ih =>
      simp only [sqlProduct, List.flatMap_cons, List.countP_append, List.map_cons,
        List.sum_cons] at ih ⊢
      rw [List.countP_map, ih]
      rfl

/-- Sum of a pointwise sum of two `Nat`-valued maps. -/
theorem sum_map_add_distrib {α : Type} (xs : List α) (f g : α → Nat) :
    (xs.map (fun x => f x + g x)).sum = (xs.map f).sum + (xs.map g).sum := by
  induction xs with
  | nil => rfl
  | cons x xs ih =>
      simp only [List.map_cons, List.sum_cons, ih]
      omega

/-- Summing the indicator of a predicate counts it. -/
theorem sum_map_ite_one {α : Type} (xs : List α) (Q : α → Bool) :
    (xs.map (fun x => if Q x then 1 else 0)).sum = xs.countP Q := by
  induction xs with
  | nil => rfl
  | cons x xs ih =>
      cases hq : Q x <;>
        simp [List.countP_cons, hq, ih, Nat.add_comm]

/-- Summing a constant guarded by a predicate. -/
theorem sum_map_ite_const {α : Type} (xs : List α) (Q : α → Bool) (c : Nat) :
    (xs.map (fun x => if Q x then c else 0)).sum = c * xs.countP Q := by
  induction xs with
  | nil => simp
  | cons x xs ih =>
      cases hq : Q x <;>
        simp [List.countP_cons, hq, ih, Nat.mul_add, Nat.add_comm]

/-- Interchange of a double count over two lists. -/
theorem sum_countP_swap {α β : Type} (xs : List α) (ys : List β) (P : α → β → Bool) :
    (xs.map (fun x => ys.countP (fun y => P x y))).sum =
      (ys.map (fun y => xs.countP (fun x => P x y))).sum := by
  induction ys with
  | nil =>
      simp [List.countP_nil]
  | cons y ys ih =>
      calc (xs.map (fun x => (y :: ys).countP (fun y' => P x y'))).sum
          = (xs.map (fun x =>
              ys.countP (fun y' => P x y') + if P x y then 1 else 0)).sum := by
            simp only [List.countP_cons]
        _ = (xs.map (fun x => ys.countP (fun y' => P x y'))).sum +
              (xs.map (fun x => if P x y then 1 else 0)).sum :=
            sum_map_add_distrib xs _ _
        _ = (ys.map (fun y' => xs.countP (fun x => P x y'))).sum +
              xs.countP (fun x => P x y) := by
            rw [ih, sum_map_ite_one]
        _ = ((y :: ys).map (fun y' => xs.countP (fun x => P x y'))).sum := by
            simp only [List.map_cons, List.sum_cons]
            omega

/-- If the images of a list under `f` are pairwise distinct and `b` is the
image of some member, then exactly one member maps to `b`. -/
theorem countP_beq_field_one {α β : Type} [BEq β] [LawfulBEq β] (f : α → β) :
    ∀ xs : List α, (xs.map f).Nodup → ∀ b : β, (∃ x ∈ xs, f x = b) →
      xs.countP (fun x => f x == b) = 1 := by
  intro xs
  induction xs with
  | nil =>
      intro _ b hb
      obtain ⟨x, hx, _⟩ := hb
      cases hx
  | cons a xs ih =>
      intro hnd b hb
      rw [List.map_cons, List.nodup_cons] at hnd
      rw [List.countP_cons]
      obtain ⟨x, hx, hfx⟩ := hb
      rcases List.mem_cons.mp hx with rfl | hx
      · have h0 : xs.countP (fun x' => f x' == b) = 0 := by
          rw [List.countP_eq_zero]
          intro c hc hbc
          rw [beq_iff_eq] at hbc
          exact hnd.1 (hfx ▸ hbc ▸ List.mem_map_of_mem f hc)
        rw [h0, hfx]
        simp
      · have h1 : xs.countP (fun x' => f x' == b) = 1 := ih hnd.2 b ⟨x, hx, hfx⟩
        have hfa : (f a == b) = false := by
          rw [beq_eq_false_iff_ne]
          intro he
          exact hnd.1 (he ▸ (hfx ▸ List.mem_map_of_mem f hx : b ∈ xs.map f))
        rw [h1, hfa]
        rfl

/-- A store with one user who liked their own post twice. -/
def twoLikesStore : Store :=
  { users := [annRow], posts := [helloRow],
    likes := [likeRow, ⟨"l2", "p1", "u1"⟩] }

/-- Claim C10: under the schema's key constraints — pairwise-distinct
`userId`s (primary key) and, for every like of the queried post, an
existing referenced user (foreign key `likes.user_id → users.userId`) —
`get_user_like_post` yields one element per Like row whose `post_id`
matches: its length (the displayed "Total Likes") equals the number of
matching Like rows, not distinct likers; every element is a persisted user
who is the referent of a matching like; and a user who liked the post k
times appears k times. -/
theorem get_user_like_post_characterization (s : Store) (pid : String)
    (hnd : (s.users.map User.userId).Nodup)
    (hri : ∀ l ∈ s.likes, l.post_id = pid → ∃ u ∈ s.users, u.userId = l.user_id) :
    (get_user_like_post s pid).length =
      (s.likes.filter (fun l => l.post_id == pid)).length ∧
    (∀ u ∈ get_user_like_post s pid,
      u ∈ s.users ∧ ∃ l ∈ s.likes, l.post_id = pid ∧ u.userId = l.user_id) ∧
    (∀ u ∈ s.users, (get_user_like_post s pid).count u =
      (s.likes.filter (fun l => l.post_id == pid && u.userId == l.user_id)).length) := by
  refine ⟨?_, ?_, ?_⟩
  · calc (get_user_like_post s pid).length
        = (sqlProduct s.users s.likes).countP
            (fun ul => ul.2.post_id == pid && ul.1.userId == ul.2.user_id) := by
          rw [get_user_like_post, List.length_map, ← List.countP_eq_length_filter]
      _ = (s.users.map (fun u => s.likes.countP
            (fun l => l.post_id == pid && u.userId == l.user_id))).sum :=
          countP_sqlProduct s.users s.likes _
      _ = (s.likes.map (fun l => s.users.countP
            (fun u => l.post_id == pid && u.userId == l.user_id))).sum :=
          sum_countP_swap s.users s.likes _
      _ = (s.likes.map (fun l => if l.post_id == pid then 1 else 0)).sum := by
          refine congrArg List.sum (List.map_congr_left ?_)
          intro l hl
          cases hp : (l.post_id == pid) with
          | false => simp [hp]
          | true =>
              simp only [hp, Bool.true_and, if_true]
              have hpe : l.post_id = pid := by rwa [beq_iff_eq] at hp
              obtain ⟨u₀, hu₀, he₀⟩ := hri l hl hpe
              exact countP_beq_field_one User.userId s.users hnd l.user_id ⟨u₀, hu₀, he₀⟩
      _ = s.likes.countP (fun l => l.post_id == pid) := sum_map_ite_one s.likes _
      _ = (s.likes.filter (fun l => l.post_id == pid)).length :=
          List.countP_eq_length_filter _ _
  · intro u hu
    rw [get_user_like_post] at hu
    simp only [List.mem_map, List.mem_filter] at hu
    obtain ⟨⟨u', l⟩, ⟨hmem, hpred⟩, heq⟩ := hu
    obtain ⟨hus, hls⟩ := mem_sqlProduct.mp hmem
    simp only [Bool.and_eq_true, beq_iff_eq] at hpred
    subst heq
    exact ⟨hus, l, hls, hpred.1, hpred.2⟩
  · intro u hu
    calc (get_user_like_post s pid).count u
        = (sqlProduct s.users s.likes).countP
            (fun ul => (ul.1 == u) &&
              (ul.2.post_id == pid && ul.1.userId == ul.2.user_id)) := by
          rw [get_user_like_post, List.count_eq_countP, List.countP_map,
            List.countP_filter]
          rfl
      _ = (s.users.map (fun x => s.likes.countP
            (fun l => (x == u) && (l.post_id == pid && x.userId == l.user_id)))).sum :=
          countP_sqlProduct s.users s.likes _
      _ = (s.users.map (fun x => if x == u
            then s.likes.countP (fun l => l.post_id == pid && u.userId == l.user_id)
            else 0)).sum := by
          refine congrArg List.sum (List.map_congr_left ?_)
          intro x hx
          cases hxe : (x == u) with
          | false => simp [hxe]
          | true =>
              have hxu : x = u := by rwa [beq_iff_eq] at hxe
              subst hxu
              simp [hxe]
      _ = s.likes.countP (fun l => l.post_id == pid && u.userId == l.user_id) *
            s.users.countP (· == u) :=
          sum_map_ite_const s.users _ _
      _ = s.likes.countP (fun l => l.post_id == pid && u.userId == l.user_id) * 1 := by
          rw [← List.count_eq_countP, List.count_eq_one_of_mem (hnd.of_map _) hu]
      _ = (s.likes.filter (fun l => l.post_id == pid && u.userId == l.user_id)).length := by
          rw [Nat.mul_one, List.countP_eq_length_filter]

/-- Witness for C10: one user who liked their own post twice appears twice,
and the reported count is 2, the number of Like rows. -/
theorem get_user_like_post_characterization_witness :
    (twoLikesStore.users.map User.userId).Nodup ∧
    (∀ l ∈ twoLikesStore.likes, l.post_id = "p1" →
      ∃ u ∈ twoLikesStore.users, u.userId = l.user_id) ∧
    ((get_user_like_post twoLikesStore "p1").length =
        (twoLikesStore.likes.filter (fun l => l.post_id == "p1")).length ∧
      (∀ u ∈ get_user_like_post twoLikesStore "p1",
        u ∈ twoLikesStore.users ∧
          ∃ l ∈ twoLikesStore.likes, l.post_id = "p1" ∧ u.userId = l.user_id) ∧
      (∀ u ∈ twoLikesStore.users, (get_user_like_post twoLikesStore "p1").count u =
        (twoLikesStore.likes.filter
          (fun l => l.post_id == "p1" && u.userId == l.user_id)).length)) :=
  ⟨by decide, by decide,
   get_user_like_post_characterization twoLikesStore "p1" (by decide) (by decide)⟩

end SocialDB
